import Mathlib

/-!
Verification of the provider abstraction and request-dispatch contract of
the Web-Weather-Dashboard repository (src/web-weather-dashboard/weather_api.py).

The Python module is embedded shallowly: each provider instance becomes a
structure holding the attributes set in its constructor, the outbound network
is an explicit function from requests to upstream outcomes, and Python
exceptions become explicit error values.  Methods return, besides their
result, the list of outbound requests they issued and the instance state
after the call, so that request-counting and immutability properties can be
stated.
-/

/-- JSON values: the decoded payload type produced by response.json(). -/
inductive Json where
  | null : Json
  | boolean : Bool → Json
  | number : Int → Json
  | str : String → Json
  | array : List Json → Json
  | object : List (String × Json) → Json

/-- A query-parameter value exactly as the Python code places it in the params
dict handed to requests.get: a string, or Python None (for an unset API key). -/
abbrev ParamVal := Option String

/-- One outbound GET request: the target URL and the query-parameter dict, as
handed to requests.get. -/
structure Request where
  url : String
  params : List (String × ParamVal)
deriving DecidableEq

/-- The upstream behaviour observed for one outbound request: either a
completed HTTP response (status code, body text, decoded JSON payload), or a
network-level failure (DNS failure, connection refused, timeout), on which
requests.get raises a RequestException instead of returning a response. -/
inductive HttpOutcome where
  | response : Nat → String → Json → HttpOutcome
  | connectionFailure : HttpOutcome

/-- The (mocked) network: the upstream outcome for each outbound request. -/
abbrev Net := Request → HttpOutcome

/-- Python exceptions crossing the boundaries modelled here:
a plain Exception with its message (what get_weather raises on a non-200
status), the RequestException raised by requests.get on a network-level
failure, and a fastapi HTTPException with status code and detail. -/
inductive PyError where
  | exception : String → PyError
  | requestException : PyError
  | httpException : Nat → String → PyError

/-- State of an OpenWeatherMapAPI instance: the two attributes its
constructor assigns. -/
structure OpenWeatherMapAPI where
  api_key : Option String
  base_url : String
deriving DecidableEq

/-- OpenWeatherMapAPI.__init__: self.api_key is
os.getenv("OPENWEATHERMAP_API_KEY"), which is None when the variable is
unset, and self.base_url is the fixed endpoint.  Construction never fails. -/
def OpenWeatherMapAPI.init (env : String → Option String) : OpenWeatherMapAPI :=
  { api_key := env "OPENWEATHERMAP_API_KEY"
    base_url := "http://api.openweathermap.org/data/2.5/weather" }

/-- The single outbound request built by OpenWeatherMapAPI.get_weather: the
params dict with keys q, appid and units, sent to self.base_url. -/
def OpenWeatherMapAPI.request (self : OpenWeatherMapAPI) (location : String) :
    Request :=
  { url := self.base_url
    params := [("q", some location), ("appid", self.api_key),
               ("units", some "metric")] }

/-- OpenWeatherMapAPI.get_weather: build the params dict, issue one GET via
requests.get, return response.json() when the status code is 200, and raise
a plain Exception naming the status code otherwise; a network-level failure
propagates as the RequestException raised by requests.get (the method has no
try block).  The triple returned is the result, the outbound requests
issued, and the instance state after the call (the method assigns no
attribute, so the state comes back as received). -/
def OpenWeatherMapAPI.get_weather (self : OpenWeatherMapAPI) (net : Net)
    (location : String) :
    Except PyError Json × List Request × OpenWeatherMapAPI :=
  let req := self.request location
  match net req with
  | .response status_code _text jsonVal =>
      if status_code = 200 then (.ok jsonVal, [req], self)
      else (.error (.exception
              ("Failed to fetch weather data: " ++ toString status_code)),
            [req], self)
  | .connectionFailure => (.error .requestException, [req], self)

/-- State of a TomorrowAPI instance: the two attributes its constructor
assigns. -/
structure TomorrowAPI where
  api_key : Option String
  base_url : String
deriving DecidableEq

/-- TomorrowAPI.__init__: self.api_key is
os.getenv("TOMORROW_API_KEY_API_KEY") — note the doubled variable name as it
appears in the source — which is None when that variable is unset, and
self.base_url is the fixed realtime endpoint.  Construction never fails. -/
def TomorrowAPI.init (env : String → Option String) : TomorrowAPI :=
  { api_key := env "TOMORROW_API_KEY_API_KEY"
    base_url := "http://api.tomorrow.io/v4/weather/realtime" }

/-- The single outbound request built by TomorrowAPI.get_weather: the params
dict with keys location and apikey, sent to self.base_url. -/
def TomorrowAPI.request (self : TomorrowAPI) (location : String) : Request :=
  { url := self.base_url
    params := [("location", some location), ("apikey", self.api_key)] }

/-- TomorrowAPI.get_weather: build the params dict, issue one GET via
requests.get, return response.json() when the status code is 200, and raise
a plain Exception naming the status code otherwise (the response text is
only printed, not carried by the exception); a network-level failure
propagates as the RequestException raised by requests.get.  Same return
shape as the OpenWeatherMap variant. -/
def TomorrowAPI.get_weather (self : TomorrowAPI) (net : Net)
    (location : String) :
    Except PyError Json × List Request × TomorrowAPI :=
  let req := self.request location
  match net req with
  | .response status_code _text jsonVal =>
      if status_code = 200 then (.ok jsonVal, [req], self)
      else (.error (.exception
              ("Failed to fetch weather data: " ++ toString status_code)),
            [req], self)
  | .connectionFailure => (.error .requestException, [req], self)

/-- What a route-handler invocation produces: a returned payload, an
HTTPException raised inside the handler, or an exception that escapes the
handler unhandled. -/
inductive HandlerOutcome where
  | ok : Json → HandlerOutcome
  | httpError : Nat → String → HandlerOutcome
  | unhandled : PyError → HandlerOutcome

/-- Route handler registered on GET /weather/openweathermap/:location.  It
calls open_weather_api.get_weather(location) and returns the result; its
only except clause catches HTTPException and re-raises an HTTPException with
the same status code and detail, so any other exception escapes the handler
unhandled. -/
def get_openweathermap_weather (open_weather_api : OpenWeatherMapAPI)
    (net : Net) (location : String) : HandlerOutcome :=
  match (open_weather_api.get_weather net location).1 with
  | .ok weather_data => .ok weather_data
  | .error (.httpException status_code detail) => .httpError status_code detail
  | .error e => .unhandled e

/-- Route handler registered on GET /weather/tomorrow/:location.  Identical
shape: calls tomorrow_api.get_weather(location), returns the result, catches
only HTTPException (re-raised with the same status code and detail); any
other exception escapes unhandled. -/
def get_tomorrow_weather (tomorrow_api : TomorrowAPI) (net : Net)
    (location : String) : HandlerOutcome :=
  match (tomorrow_api.get_weather net location).1 with
  | .ok weather_data => .ok weather_data
  | .error (.httpException status_code detail) => .httpError status_code detail
  | .error e => .unhandled e

/-- Caller-facing HTTP response. -/
structure CallerResponse where
  status_code : Nat
  body : Json

/-- Boundary model of the web framework (an external collaborator, as fixed
by FastAPI's documented contract): a value returned from a handler is sent
with success status 200; a raised HTTPException is sent with its own status
code and its detail; an exception that escapes the handler unhandled becomes
a generic 500 Internal Server Error response. -/
def fastApiRespond : HandlerOutcome → CallerResponse
  | .ok payload => { status_code := 200, body := payload }
  | .httpError s d => { status_code := s, body := .object [("detail", .str d)] }
  | .unhandled _ =>
      { status_code := 500
        body := .object [("detail", .str "Internal Server Error")] }

/-- The app's route table, from the two route registrations in the source:
a request path whose provider segment is openweathermap or tomorrow invokes
the matching handler; any other provider segment matches neither registered
route, and the framework answers 404 Not Found without entering any
handler. -/
def dispatch (open_weather_api : OpenWeatherMapAPI)
    (tomorrow_api : TomorrowAPI) (net : Net)
    (providerName location : String) : HandlerOutcome :=
  if providerName = "openweathermap" then
    get_openweathermap_weather open_weather_api net location
  else if providerName = "tomorrow" then
    get_tomorrow_weather tomorrow_api net location
  else .httpError 404 "Not Found"

/-! Helper lemmas shared by the claim theorems. -/

/-- Shape of an OpenWeatherMap get_weather call whose upstream answered. -/
theorem owm_run_response (self : OpenWeatherMapAPI) (net : Net)
    (location : String) (s : Nat) (t : String) (j : Json)
    (h : net (self.request location) = .response s t j) :
    self.get_weather net location =
      (if s = 200 then .ok j
       else .error (.exception ("Failed to fetch weather data: " ++ toString s)),
       [self.request location], self) := by
  simp only [OpenWeatherMapAPI.get_weather, h]
  split <;> rfl

/-- Shape of a Tomorrow get_weather call whose upstream answered. -/
theorem tmr_run_response (self : TomorrowAPI) (net : Net)
    (location : String) (s : Nat) (t : String) (j : Json)
    (h : net (self.request location) = .response s t j) :
    self.get_weather net location =
      (if s = 200 then .ok j
       else .error (.exception ("Failed to fetch weather data: " ++ toString s)),
       [self.request location], self) := by
  simp only [TomorrowAPI.get_weather, h]
  split <;> rfl

/-- Shape of an OpenWeatherMap get_weather call on a network-level failure. -/
theorem owm_run_connectionFailure (self : OpenWeatherMapAPI) (net : Net)
    (location : String) (h : net (self.request location) = .connectionFailure) :
    self.get_weather net location =
      (.error .requestException, [self.request location], self) := by
  simp only [OpenWeatherMapAPI.get_weather, h]

/-- Shape of a Tomorrow get_weather call on a network-level failure. -/
theorem tmr_run_connectionFailure (self : TomorrowAPI) (net : Net)
    (location : String) (h : net (self.request location) = .connectionFailure) :
    self.get_weather net location =
      (.error .requestException, [self.request location], self) := by
  simp only [TomorrowAPI.get_weather, h]

/-- Whatever the upstream does, an OpenWeatherMap get_weather call issues
exactly the one request it built and hands the instance state back
unchanged. -/
theorem owm_run_shape (self : OpenWeatherMapAPI) (net : Net)
    (location : String) :
    (self.get_weather net location).2.1 = [self.request location] ∧
    (self.get_weather net location).2.2 = self := by
  cases h : net (self.request location) with
  | response s t j =>
      rw [owm_run_response self net location s t j h]; exact ⟨rfl, rfl⟩
  | connectionFailure =>
      rw [owm_run_connectionFailure self net location h]; exact ⟨rfl, rfl⟩

/-- Whatever the upstream does, a Tomorrow get_weather call issues exactly
the one request it built and hands the instance state back unchanged. -/
theorem tmr_run_shape (self : TomorrowAPI) (net : Net) (location : String) :
    (self.get_weather net location).2.1 = [self.request location] ∧
    (self.get_weather net location).2.2 = self := by
  cases h : net (self.request location) with
  | response s t j =>
      rw [tmr_run_response self net location s t j h]; exact ⟨rfl, rfl⟩
  | connectionFailure =>
      rw [tmr_run_connectionFailure self net location h]; exact ⟨rfl, rfl⟩

/-! Claim theorems. -/

/-- C1: refuted on the code at the scenario input.  With the upstream
answering status 401 on the tomorrow route, TomorrowAPI.get_weather raises a
plain Exception; the handler's only except clause catches HTTPException,
which never fires, so the exception escapes the handler unhandled and the
caller receives status 500 — not the upstream status 401 with its
message. -/
theorem c1_mocked_401_yields_caller_500 :
    dispatch (OpenWeatherMapAPI.init fun _ => some "key")
        (TomorrowAPI.init fun _ => some "key")
        (fun _ => .response 401 "Unauthorized" (.object [])) "tomorrow" "Paris"
      = .unhandled (.exception ("Failed to fetch weather data: " ++ toString 401)) ∧
    (fastApiRespond (dispatch (OpenWeatherMapAPI.init fun _ => some "key")
        (TomorrowAPI.init fun _ => some "key")
        (fun _ => .response 401 "Unauthorized" (.object [])) "tomorrow"
        "Paris")).status_code = 500 :=
  ⟨rfl, rfl⟩

/-- C2 counterexample: two upstream 401 responses that differ only in their
body text make get_weather raise the identical error, so the error raised on
a non-success status does not carry the response body, contrary to the
claim (the tomorrow provider only prints the body). -/
theorem c2_error_does_not_carry_body :
    ((TomorrowAPI.init fun _ => some "key").get_weather
        (fun _ => .response 401 "first-distinct-body" (.object [])) "Paris").1
      = ((TomorrowAPI.init fun _ => some "key").get_weather
        (fun _ => .response 401 "second-distinct-body" (.object []))
        "Paris").1 :=
  rfl

/-- C2 (amended): for both providers, an upstream response with a
non-success status s makes get_weather fail with a plain Exception whose
message carries exactly that status code — it never returns a value and
never fails another way — but the response body is not carried. -/
theorem c2_non_success_raises_exact_status
    (owm : OpenWeatherMapAPI) (tmr : TomorrowAPI) (net : Net)
    (location : String) (s : Nat) (t : String) (j : Json) (hs : s ≠ 200)
    (h1 : net (owm.request location) = .response s t j)
    (h2 : net (tmr.request location) = .response s t j) :
    (owm.get_weather net location).1 =
      .error (.exception ("Failed to fetch weather data: " ++ toString s)) ∧
    (tmr.get_weather net location).1 =
      .error (.exception ("Failed to fetch weather data: " ++ toString s)) := by
  rw [owm_run_response owm net location s t j h1,
      tmr_run_response tmr net location s t j h2]
  simp [hs]

/-- C2 witness: both providers at upstream status 404. -/
theorem c2_witness :
    ((OpenWeatherMapAPI.init fun _ => some "key").get_weather
        (fun _ => .response 404 "" .null) "London").1 =
      .error (.exception ("Failed to fetch weather data: " ++ toString 404)) ∧
    ((TomorrowAPI.init fun _ => some "key").get_weather
        (fun _ => .response 404 "" .null) "London").1 =
      .error (.exception ("Failed to fetch weather data: " ++ toString 404)) :=
  c2_non_success_raises_exact_status (OpenWeatherMapAPI.init fun _ => some "key")
    (TomorrowAPI.init fun _ => some "key") (fun _ => .response 404 "" .null)
    "London" 404 "" .null (by decide) rfl rfl

/-- C3: for both providers, a success-status upstream response makes
get_weather return the decoded JSON payload unchanged, and the route relays
exactly that payload to the caller with success status 200. -/
theorem c3_success_payload_passes_through
    (owm : OpenWeatherMapAPI) (tmr : TomorrowAPI) (net : Net)
    (location : String) (t u : String) (j : Json)
    (h1 : net (owm.request location) = .response 200 t j)
    (h2 : net (tmr.request location) = .response 200 u j) :
    (owm.get_weather net location).1 = .ok j ∧
    (tmr.get_weather net location).1 = .ok j ∧
    fastApiRespond (get_openweathermap_weather owm net location) =
      { status_code := 200, body := j } ∧
    fastApiRespond (get_tomorrow_weather tmr net location) =
      { status_code := 200, body := j } := by
  have e1 : (owm.get_weather net location).1 = .ok j := by
    rw [owm_run_response owm net location 200 t j h1]; rfl
  have e2 : (tmr.get_weather net location).1 = .ok j := by
    rw [tmr_run_response tmr net location 200 u j h2]; rfl
  refine ⟨e1, e2, ?_, ?_⟩
  · unfold get_openweathermap_weather
    rw [e1]; rfl
  · unfold get_tomorrow_weather
    rw [e2]; rfl

/-- C3 witness: the London scenario with payload containing temp 15 on both
providers. -/
theorem c3_witness :
    ((OpenWeatherMapAPI.init fun _ => some "key").get_weather
        (fun _ => .response 200 "" (.object [("temp", .number 15)]))
        "London").1 = .ok (.object [("temp", .number 15)]) ∧
    ((TomorrowAPI.init fun _ => some "key").get_weather
        (fun _ => .response 200 "" (.object [("temp", .number 15)]))
        "London").1 = .ok (.object [("temp", .number 15)]) ∧
    fastApiRespond (get_openweathermap_weather
        (OpenWeatherMapAPI.init fun _ => some "key")
        (fun _ => .response 200 "" (.object [("temp", .number 15)]))
        "London") =
      { status_code := 200, body := .object [("temp", .number 15)] } ∧
    fastApiRespond (get_tomorrow_weather (TomorrowAPI.init fun _ => some "key")
        (fun _ => .response 200 "" (.object [("temp", .number 15)]))
        "London") =
      { status_code := 200, body := .object [("temp", .number 15)] } :=
  c3_success_payload_passes_through
    (OpenWeatherMapAPI.init fun _ => some "key")
    (TomorrowAPI.init fun _ => some "key")
    (fun _ => .response 200 "" (.object [("temp", .number 15)]))
    "London" "" "" (.object [("temp", .number 15)]) rfl rfl

/-- C4: for both providers, a network-level failure of the outbound call
makes get_weather fail with the RequestException raised by requests.get,
which is a different error from the plain Exception raised on a non-success
status, whatever that exception's message. -/
theorem c4_transport_failure_is_distinct
    (owm : OpenWeatherMapAPI) (tmr : TomorrowAPI) (net : Net)
    (location : String)
    (h1 : net (owm.request location) = .connectionFailure)
    (h2 : net (tmr.request location) = .connectionFailure) :
    (owm.get_weather net location).1 = .error .requestException ∧
    (tmr.get_weather net location).1 = .error .requestException ∧
    ∀ msg, PyError.requestException ≠ PyError.exception msg := by
  refine ⟨?_, ?_, fun msg h => PyError.noConfusion h⟩
  · rw [owm_run_connectionFailure owm net location h1]
  · rw [tmr_run_connectionFailure tmr net location h2]

/-- C4 witness: an unreachable upstream for both providers. -/
theorem c4_witness :
    ((OpenWeatherMapAPI.init fun _ => some "key").get_weather
        (fun _ => .connectionFailure) "London").1 =
      .error .requestException ∧
    ((TomorrowAPI.init fun _ => some "key").get_weather
        (fun _ => .connectionFailure) "London").1 =
      .error .requestException :=
  ⟨(c4_transport_failure_is_distinct
      (OpenWeatherMapAPI.init fun _ => some "key")
      (TomorrowAPI.init fun _ => some "key")
      (fun _ => .connectionFailure) "London" rfl rfl).1,
   (c4_transport_failure_is_distinct
      (OpenWeatherMapAPI.init fun _ => some "key")
      (TomorrowAPI.init fun _ => some "key")
      (fun _ => .connectionFailure) "London" rfl rfl).2.1⟩

/-- C5 counterexample: with every environment variable unset, both
constructors succeed (returning instances whose api_key is None) instead of
failing with a ConfigurationError, and the request built at request time
carries the missing key among its parameters — a request-time path observes
the missing key. -/
theorem c5_construction_succeeds_without_key :
    (OpenWeatherMapAPI.init fun _ => none).api_key = none ∧
    (TomorrowAPI.init fun _ => none).api_key = none ∧
    ((OpenWeatherMapAPI.init fun _ => none).request "London").params =
      [("q", some "London"), ("appid", none), ("units", some "metric")] ∧
    ((TomorrowAPI.init fun _ => none).request "Paris").params =
      [("location", some "Paris"), ("apikey", none)] :=
  ⟨rfl, rfl, rfl, rfl⟩

/-- C5 (amended): when a provider's API key environment variable is absent,
construction nonetheless succeeds with api_key = None — no
ConfigurationError exists, nothing prevents startup — and request-time paths
do observe the missing key: the request get_weather builds carries None as
its authentication parameter. -/
theorem c5_missing_key_reaches_request_time (env : String → Option String)
    (location : String)
    (h1 : env "OPENWEATHERMAP_API_KEY" = none)
    (h2 : env "TOMORROW_API_KEY_API_KEY" = none) :
    (OpenWeatherMapAPI.init env).api_key = none ∧
    (TomorrowAPI.init env).api_key = none ∧
    ("appid", (none : ParamVal)) ∈
      ((OpenWeatherMapAPI.init env).request location).params ∧
    ("apikey", (none : ParamVal)) ∈
      ((TomorrowAPI.init env).request location).params := by
  refine ⟨h1, h2, ?_, ?_⟩
  · simp [OpenWeatherMapAPI.init, OpenWeatherMapAPI.request, h1]
  · simp [TomorrowAPI.init, TomorrowAPI.request, h2]

/-- C5 amended witness: the empty environment, location London. -/
theorem c5_witness :
    (OpenWeatherMapAPI.init fun _ => none).api_key = none ∧
    (TomorrowAPI.init fun _ => none).api_key = none ∧
    ("appid", (none : ParamVal)) ∈
      ((OpenWeatherMapAPI.init fun _ => none).request "London").params ∧
    ("apikey", (none : ParamVal)) ∈
      ((TomorrowAPI.init fun _ => none).request "London").params :=
  c5_missing_key_reaches_request_time (fun _ => none) "London" rfl rfl

/-- C6: whatever the upstream does, a single get_weather call issues exactly
one outbound GET request, carrying exactly the query parameters q (the
location), appid (the api key) and units against the OpenWeatherMap weather
endpoint, and exactly location and apikey against the Tomorrow realtime
endpoint. -/
theorem c6_exactly_one_request_exact_params
    (owm : OpenWeatherMapAPI) (tmr : TomorrowAPI) (net : Net)
    (location : String) :
    (owm.get_weather net location).2.1 =
      [{ url := owm.base_url
         params := [("q", some location), ("appid", owm.api_key),
                    ("units", some "metric")] }] ∧
    (tmr.get_weather net location).2.1 =
      [{ url := tmr.base_url
         params := [("location", some location), ("apikey", tmr.api_key)] }] :=
  ⟨(owm_run_shape owm net location).1, (tmr_run_shape tmr net location).1⟩

/-- C7: the configuration pair fixed at construction is left unchanged by
every get_weather call, whether it returns or fails: the instance state
after the call equals the state before, and in particular api_key and
base_url are unchanged. -/
theorem c7_configuration_immutable
    (owm : OpenWeatherMapAPI) (tmr : TomorrowAPI) (net : Net)
    (location : String) :
    (owm.get_weather net location).2.2 = owm ∧
    (owm.get_weather net location).2.2.api_key = owm.api_key ∧
    (owm.get_weather net location).2.2.base_url = owm.base_url ∧
    (tmr.get_weather net location).2.2 = tmr ∧
    (tmr.get_weather net location).2.2.api_key = tmr.api_key ∧
    (tmr.get_weather net location).2.2.base_url = tmr.base_url := by
  have h1 := (owm_run_shape owm net location).2
  have h2 := (tmr_run_shape tmr net location).2
  exact ⟨h1, by rw [h1], by rw [h1], h2, by rw [h2], by rw [h2]⟩

/-- C8: dispatch is total and exhaustive over the provider names: the name
openweathermap invokes the OpenWeatherMap handler, the name tomorrow
invokes the Tomorrow handler, and every other provider name yields the
distinct 404 Not Found error response — neither a successful payload nor an
unhandled exception. -/
theorem c8_dispatch_total_and_exhaustive
    (owm : OpenWeatherMapAPI) (tmr : TomorrowAPI) (net : Net)
    (location : String) (name : String)
    (hn1 : name ≠ "openweathermap") (hn2 : name ≠ "tomorrow") :
    dispatch owm tmr net "openweathermap" location =
      get_openweathermap_weather owm net location ∧
    dispatch owm tmr net "tomorrow" location =
      get_tomorrow_weather tmr net location ∧
    dispatch owm tmr net name location = .httpError 404 "Not Found" ∧
    (∀ e, dispatch owm tmr net name location ≠ .unhandled e) ∧
    (∀ j, dispatch owm tmr net name location ≠ .ok j) := by
  have hd : dispatch owm tmr net name location = .httpError 404 "Not Found" := by
    unfold dispatch
    rw [if_neg hn1, if_neg hn2]
  refine ⟨?_, ?_, hd, ?_, ?_⟩
  · unfold dispatch; rw [if_pos rfl]
  · unfold dispatch; rw [if_neg (by decide), if_pos rfl]
  · intro e h; rw [hd] at h; exact HandlerOutcome.noConfusion h
  · intro j h; rw [hd] at h; exact HandlerOutcome.noConfusion h

/-- C8 witness: the unrecognized provider name weatherstack yields the 404
error while the two known names reach their handlers. -/
theorem c8_witness :
    dispatch (OpenWeatherMapAPI.init fun _ => some "key")
      (TomorrowAPI.init fun _ => some "key")
      (fun _ => .response 200 "" .null) "openweathermap" "Paris" =
      get_openweathermap_weather (OpenWeatherMapAPI.init fun _ => some "key")
        (fun _ => .response 200 "" .null) "Paris" ∧
    dispatch (OpenWeatherMapAPI.init fun _ => some "key")
      (TomorrowAPI.init fun _ => some "key")
      (fun _ => .response 200 "" .null) "tomorrow" "Paris" =
      get_tomorrow_weather (TomorrowAPI.init fun _ => some "key")
        (fun _ => .response 200 "" .null) "Paris" ∧
    dispatch (OpenWeatherMapAPI.init fun _ => some "key")
      (TomorrowAPI.init fun _ => some "key")
      (fun _ => .response 200 "" .null) "weatherstack" "Paris" =
      .httpError 404 "Not Found" :=
  ⟨(c8_dispatch_total_and_exhaustive
      (OpenWeatherMapAPI.init fun _ => some "key")
      (TomorrowAPI.init fun _ => some "key") (fun _ => .response 200 "" .null)
      "Paris" "weatherstack" (by decide) (by decide)).1,
   (c8_dispatch_total_and_exhaustive
      (OpenWeatherMapAPI.init fun _ => some "key")
      (TomorrowAPI.init fun _ => some "key") (fun _ => .response 200 "" .null)
      "Paris" "weatherstack" (by decide) (by decide)).2.1,
   (c8_dispatch_total_and_exhaustive
      (OpenWeatherMapAPI.init fun _ => some "key")
      (TomorrowAPI.init fun _ => some "key") (fun _ => .response 200 "" .null)
      "Paris" "weatherstack" (by decide) (by decide)).2.2.1⟩

/-- C9: both providers treat only the exact status code 200 as success: for
any other status code s, 201 and 204 included, get_weather does not return
the decoded payload but raises the failure exception naming s. -/
theorem c9_only_exact_200_is_success
    (owm : OpenWeatherMapAPI) (tmr : TomorrowAPI) (net : Net)
    (location : String) (s : Nat) (t : String) (j : Json) (hs : s ≠ 200)
    (h1 : net (owm.request location) = .response s t j)
    (h2 : net (tmr.request location) = .response s t j) :
    (owm.get_weather net location).1 ≠ .ok j ∧
    (tmr.get_weather net location).1 ≠ .ok j ∧
    (owm.get_weather net location).1 =
      .error (.exception ("Failed to fetch weather data: " ++ toString s)) ∧
    (tmr.get_weather net location).1 =
      .error (.exception ("Failed to fetch weather data: " ++ toString s)) := by
  have e1 : (owm.get_weather net location).1 =
      .error (.exception ("Failed to fetch weather data: " ++ toString s)) := by
    rw [owm_run_response owm net location s t j h1]; simp [hs]
  have e2 : (tmr.get_weather net location).1 =
      .error (.exception ("Failed to fetch weather data: " ++ toString s)) := by
    rw [tmr_run_response tmr net location s t j h2]; simp [hs]
  refine ⟨?_, ?_, e1, e2⟩
  · intro h; rw [e1] at h; exact Except.noConfusion h
  · intro h; rw [e2] at h; exact Except.noConfusion h

/-- C9 witness: status 201 on the OpenWeatherMap provider and status 204 on
the Tomorrow provider both produce the failure exception, not the payload. -/
theorem c9_witness :
    ((OpenWeatherMapAPI.init fun _ => some "key").get_weather
        (fun _ => .response 201 "" .null) "London").1 =
      .error (.exception ("Failed to fetch weather data: " ++ toString 201)) ∧
    ((TomorrowAPI.init fun _ => some "key").get_weather
        (fun _ => .response 204 "" .null) "London").1 =
      .error (.exception ("Failed to fetch weather data: " ++ toString 204)) :=
  ⟨(c9_only_exact_200_is_success (OpenWeatherMapAPI.init fun _ => some "key")
      (TomorrowAPI.init fun _ => some "key") (fun _ => .response 201 "" .null)
      "London" 201 "" .null (by decide) rfl rfl).2.2.1,
   (c9_only_exact_200_is_success (OpenWeatherMapAPI.init fun _ => some "key")
      (TomorrowAPI.init fun _ => some "key") (fun _ => .response 204 "" .null)
      "London" 204 "" .null (by decide) rfl rfl).2.2.2⟩

/-- C10: the OpenWeatherMap constructor reads OPENWEATHERMAP_API_KEY and the
Tomorrow constructor reads the doubled name TOMORROW_API_KEY_API_KEY; when
the variable actually read is unset, construction still succeeds with
api_key = None, and every subsequent get_weather call issues its one
outbound request with None in its authentication parameter (appid for
OpenWeatherMap, apikey for Tomorrow). -/
theorem c10_unset_key_flows_into_request (env : String → Option String)
    (net : Net) (location : String)
    (h1 : env "OPENWEATHERMAP_API_KEY" = none)
    (h2 : env "TOMORROW_API_KEY_API_KEY" = none) :
    OpenWeatherMapAPI.init env =
      { api_key := none
        base_url := "http://api.openweathermap.org/data/2.5/weather" } ∧
    TomorrowAPI.init env =
      { api_key := none
        base_url := "http://api.tomorrow.io/v4/weather/realtime" } ∧
    ((OpenWeatherMapAPI.init env).get_weather net location).2.1 =
      [{ url := "http://api.openweathermap.org/data/2.5/weather"
         params := [("q", some location), ("appid", none),
                    ("units", some "metric")] }] ∧
    ((TomorrowAPI.init env).get_weather net location).2.1 =
      [{ url := "http://api.tomorrow.io/v4/weather/realtime"
         params := [("location", some location), ("apikey", none)] }] := by
  have e1 : OpenWeatherMapAPI.init env =
      { api_key := none
        base_url := "http://api.openweathermap.org/data/2.5/weather" } := by
    unfold OpenWeatherMapAPI.init; rw [h1]
  have e2 : TomorrowAPI.init env =
      { api_key := none
        base_url := "http://api.tomorrow.io/v4/weather/realtime" } := by
    unfold TomorrowAPI.init; rw [h2]
  refine ⟨e1, e2, ?_, ?_⟩
  · rw [e1]; exact (owm_run_shape _ net location).1
  · rw [e2]; exact (tmr_run_shape _ net location).1

/-- C10 witness: an environment that sets TOMORROW_API_KEY but neither
OPENWEATHERMAP_API_KEY nor the doubled TOMORROW_API_KEY_API_KEY that the
constructor actually reads. -/
theorem c10_witness :
    OpenWeatherMapAPI.init
        (fun v => if v = "TOMORROW_API_KEY" then some "secret" else none) =
      { api_key := none
        base_url := "http://api.openweathermap.org/data/2.5/weather" } ∧
    TomorrowAPI.init
        (fun v => if v = "TOMORROW_API_KEY" then some "secret" else none) =
      { api_key := none
        base_url := "http://api.tomorrow.io/v4/weather/realtime" } ∧
    ((OpenWeatherMapAPI.init
        (fun v => if v = "TOMORROW_API_KEY" then some "secret" else none)).get_weather
        (fun _ => .connectionFailure) "London").2.1 =
      [{ url := "http://api.openweathermap.org/data/2.5/weather"
         params := [("q", some "London"), ("appid", none),
                    ("units", some "metric")] }] ∧
    ((TomorrowAPI.init
        (fun v => if v = "TOMORROW_API_KEY" then some "secret" else none)).get_weather
        (fun _ => .connectionFailure) "London").2.1 =
      [{ url := "http://api.tomorrow.io/v4/weather/realtime"
         params := [("location", some "London"), ("apikey", none)] }] :=
  c10_unset_key_flows_into_request
    (fun v => if v = "TOMORROW_API_KEY" then some "secret" else none)
    (fun _ => .connectionFailure) "London" (by decide) (by decide)
